import Mathlib

/-!
Shallow embedding of `src/main.py` (openshift-aap-mcp-demo): a FastAPI bridge
exposing `POST /create_vm` (create a KubeVirt VirtualMachine custom resource)
and `POST /launch_aap_job` (resolve an AAP job-template name to an id, then
launch it).

Modelling choices:
* Process configuration (`os.getenv`) is a `Config` of `Option String`s;
  Python truthiness of an optional string (`if not X`) is `falsyOpt`.
* Outbound HTTP is an oracle `Env`: `get_job_templates` models
  `requests.get({base}/api/v2/job_templates/?name=...)` after
  `raise_for_status` and `.json()` (an `Except.error` covers both transport
  failures and non-2xx responses, i.e. every `requests.exceptions.RequestException`);
  `post_launch` models `requests.post({launch_url}, json={extra_vars})` the same way.
* The Kubernetes client is an oracle `KubeEnv`; `ApiException` is
  `KubeResult.apiError status reason`.
* Each embedded endpoint returns its Python outcome (`PyOutcome`: normal
  return, raised `fastapi.HTTPException`, or an unhandled Python exception
  such as the `IndexError` on `data["results"][0]` when `count == 1` but the
  list is empty) together with the list of outbound calls it performed, in
  order.
* Python f-string interpolation of `None` and of integers is `pyStrOfOptInt`
  / `pyStrOfOptStr`.
-/

/-- Process-level configuration read from environment variables at startup
(`os.getenv` returns `None` when unset). -/
structure Config where
  AAP_CONTROLLER_URL : Option String
  AAP_API_TOKEN : Option String
deriving DecidableEq, Repr

/-- Python truthiness test `not x` for an optional string: `None` and the
empty string are falsy. -/
def falsyOpt : Option String → Bool
  | none => true
  | some s => s = ""

/-- Python f-string rendering of an optional string: `None` renders as the
literal text "None". -/
def pyStrOfOptStr : Option String → String
  | none => "None"
  | some s => s

/-- Python f-string rendering of an optional integer (`job_data.get("job")`):
`None` renders as "None". -/
def pyStrOfOptInt : Option Int → String
  | none => "None"
  | some n => toString n

/-- A `fastapi.HTTPException` as raised by the endpoints. -/
structure HTTPException where
  status_code : Nat
  detail : String
deriving DecidableEq, Repr

/-- Outcome of running one endpoint body: a normal return value, a raised
`HTTPException`, or an unhandled Python exception (modelled by its name). -/
inductive PyOutcome (α : Type) where
  | ok : α → PyOutcome α
  | exc : HTTPException → PyOutcome α
  | crash : String → PyOutcome α
deriving DecidableEq, Repr

/-- One record of `data["results"]` in the template-lookup response; the code
only reads its `id` field. -/
structure TemplateRecord where
  id : Int
deriving DecidableEq, Repr

/-- Parsed JSON body of a successful `GET /api/v2/job_templates/?name=...`:
`{count, results}`. -/
structure LookupData where
  count : Int
  results : List TemplateRecord
deriving DecidableEq, Repr

/-- Parsed JSON body of a successful launch `POST`: the optional "job" field
read by `job_data.get("job")`. -/
structure LaunchData where
  job : Option Int
deriving DecidableEq, Repr

/-- The request body schema `extra_vars: Dict[str, Any]`, abstracted to an
association list. -/
def ExtraVars := List (String × String)
deriving DecidableEq, Repr

/-- Pydantic model `AAPJob`. -/
structure AAPJob where
  job_template_name : String
  extra_vars : ExtraVars
deriving DecidableEq, Repr

/-- Pydantic model `VirtualMachine`. -/
structure VirtualMachine where
  vm_name : String
  «namespace» : String
deriving DecidableEq, Repr

/-- One outbound HTTP call to the automation controller, as performed by
`requests.get` / `requests.post`. -/
inductive OutboundCall where
  | lookup (url : String) (name : String) (headers : List (String × String))
  | launch (url : String) (extra_vars : ExtraVars) (headers : List (String × String))
deriving DecidableEq, Repr

/-- The network, as seen through the `requests` library: each oracle returns
either the parsed JSON of a 2xx response or the text of the
`requests.exceptions.RequestException` raised (transport failure, or non-2xx
via `raise_for_status`). -/
structure Env where
  get_job_templates : String → String → Except String LookupData
  post_launch : String → ExtraVars → Except String LaunchData

/-- Helper `get_job_template_id(template_name, headers)` from
`src/main.py:42-61`, with the outbound calls it performed. -/
def get_job_template_id (cfg : Config) (env : Env) (template_name : String)
    (headers : List (String × String)) : PyOutcome Int × List OutboundCall :=
  if falsyOpt cfg.AAP_CONTROLLER_URL then
    (.exc ⟨500, "AAP_CONTROLLER_URL is not configured."⟩, [])
  else
    let url := cfg.AAP_CONTROLLER_URL.getD "" ++ "/api/v2/job_templates/"
    let log := [OutboundCall.lookup url template_name headers]
    match env.get_job_templates url template_name with
    | .error e =>
        (.exc ⟨503, "Service Unavailable: Could not connect to AAP. Error: " ++ e⟩, log)
    | .ok data =>
        if data.count = 1 then
          match data.results with
          | [] => (.crash "IndexError", log)
          | r :: _ => (.ok r.id, log)
        else if data.count > 1 then
          (.exc ⟨409, "Conflict: Multiple job templates found with name \x27"
                        ++ template_name ++ "\x27."⟩, log)
        else
          (.exc ⟨404, "Not Found: No job template found with name \x27"
                        ++ template_name ++ "\x27."⟩, log)

/-- The headers dict built at `src/main.py:132-135`. -/
def aap_headers (token : String) : List (String × String) :=
  [("Content-Type", "application/json"), ("Authorization", "Bearer " ++ token)]

/-- Successful response body of `POST /launch_aap_job` (`src/main.py:145-150`). -/
structure LaunchSuccess where
  status : String
  message : String
  job_id : Option Int
  aap_url : String
deriving DecidableEq, Repr

/-- Endpoint `POST /launch_aap_job` (`src/main.py:124-152`), with the outbound
calls it performed. -/
def launch_aap_job (cfg : Config) (env : Env) (job : AAPJob) :
    PyOutcome LaunchSuccess × List OutboundCall :=
  if falsyOpt cfg.AAP_API_TOKEN then
    (.exc ⟨500, "AAP_API_TOKEN is not configured."⟩, [])
  else
    let headers := aap_headers (cfg.AAP_API_TOKEN.getD "")
    match get_job_template_id cfg env job.job_template_name headers with
    | (.exc e, log1) => (.exc e, log1)
    | (.crash m, log1) => (.crash m, log1)
    | (.ok template_id, log1) =>
        let launch_url := pyStrOfOptStr cfg.AAP_CONTROLLER_URL
          ++ "/api/v2/job_templates/" ++ toString template_id ++ "/launch/"
        let log := log1 ++ [OutboundCall.launch launch_url job.extra_vars headers]
        match env.post_launch launch_url job.extra_vars with
        | .error e =>
            (.exc ⟨503, "Service Unavailable: Failed to launch job in AAP. Error: " ++ e⟩, log)
        | .ok job_data =>
            (.ok { status := "success",
                   message := "Successfully launched job template \x27"
                                ++ job.job_template_name ++ "\x27.",
                   job_id := job_data.job,
                   aap_url := pyStrOfOptStr cfg.AAP_CONTROLLER_URL
                                ++ "/#/jobs/playbook/" ++ pyStrOfOptInt job_data.job }, log)

/-- A JSON-like value, enough to embed the VM manifest dict literal of
`src/main.py:78-104`. -/
inductive Json where
  | str : String → Json
  | bool : Bool → Json
  | arr : List Json → Json
  | obj : List (String × Json) → Json

/-- Key lookup in a JSON object (first occurrence), used only in statements. -/
def Json.getKey : Json → String → Option Json
  | .obj fields, k => (fields.find? (fun p => p.1 = k)).map Prod.snd
  | _, _ => none

/-- The `vm_manifest` dict literal built by `create_vm` (`src/main.py:78-104`),
parameterised only by `vm.vm_name`. -/
def vm_manifest (vm_name : String) : Json :=
  .obj [
    ("apiVersion", .str "kubevirt.io/v1"),
    ("kind", .str "VirtualMachine"),
    ("metadata", .obj [("name", .str vm_name)]),
    ("spec", .obj [
      ("running", .bool false),
      ("template", .obj [
        ("spec", .obj [
          ("domain", .obj [
            ("devices", .obj [
              ("disks", .arr [
                .obj [("name", .str "containerdisk"),
                      ("disk", .obj [("bus", .str "virtio")])]])]),
            ("resources", .obj [("requests", .obj [("memory", .str "2Gi")])])]),
          ("volumes", .arr [
            .obj [("name", .str "containerdisk"),
                  ("containerDisk", .obj [("image", .str "quay.io/containerdisks/rhel:9")])]])])])])]

/-- Result of `CustomObjectsApi.create_namespaced_custom_object`: success, or
an `ApiException` carrying `e.status` and `e.reason`. -/
inductive KubeResult where
  | ok
  | apiError (status : Nat) (reason : String)
deriving DecidableEq, Repr

/-- The Kubernetes API client, as an oracle over the call's five arguments. -/
structure KubeEnv where
  create_namespaced_custom_object :
    (group : String) → (version : String) → («namespace» : String) →
    (plural : String) → (body : Json) → KubeResult

/-- One `create_namespaced_custom_object` call as issued at
`src/main.py:107-113`. -/
structure CreateCall where
  group : String
  version : String
  «namespace» : String
  plural : String
  body : Json

/-- Successful response body of `POST /create_vm` (`src/main.py:114-117`). -/
structure CreateSuccess where
  status : String
  message : String
deriving DecidableEq, Repr

/-- Endpoint `POST /create_vm` (`src/main.py:69-122`), with the outbound
Kubernetes calls it performed. The process `Config` is in scope, as in the
source module, even though this endpoint never reads it. -/
def create_vm (cfg : Config) (kube : KubeEnv) (vm : VirtualMachine) :
    PyOutcome CreateSuccess × List CreateCall :=
  let manifest := vm_manifest vm.vm_name
  let call : CreateCall :=
    ⟨"kubevirt.io", "v1", vm.«namespace», "virtualmachines", manifest⟩
  match kube.create_namespaced_custom_object
      "kubevirt.io" "v1" vm.«namespace» "virtualmachines" manifest with
  | .ok =>
      (.ok { status := "success",
             message := "VirtualMachine \x27" ++ vm.vm_name
                          ++ "\x27 created successfully in namespace \x27"
                          ++ vm.«namespace» ++ "\x27." }, [call])
  | .apiError st reason =>
      (.exc ⟨st, "Kubernetes API Error: Failed to create VM. Reason: " ++ reason⟩, [call])

/-- Substring containment over the character list, used only in statements
(does string `s` contain `sub`?). -/
def strContains (s sub : String) : Bool :=
  (List.range (s.data.length + 1)).any (fun i => sub.data.isPrefixOf (s.data.drop i))

/-- The outbound-call log of `get_job_template_id` is exactly the one lookup
call whenever the controller URL is configured, whatever the response. -/
theorem get_job_template_id_log (cfg : Config) (env : Env) (name : String)
    (headers : List (String × String)) (base : String)
    (hU : cfg.AAP_CONTROLLER_URL = some base)
    (hfU : falsyOpt cfg.AAP_CONTROLLER_URL = false) :
    (get_job_template_id cfg env name headers).2 =
      [OutboundCall.lookup (base ++ "/api/v2/job_templates/") name headers] := by
  unfold get_job_template_id
  rw [hfU, hU]
  simp only [Option.getD_some, if_false, Bool.false_eq_true]
  cases env.get_job_templates (base ++ "/api/v2/job_templates/") name with
  | error e => rfl
  | ok data =>
      by_cases h1 : data.count = 1
      · cases hr : data.results with
        | nil => simp [h1, hr]
        | cons r rs => simp [h1, hr]
      · by_cases h2 : data.count > 1 <;> simp [h1, h2]

/-- The outbound-call log of `create_vm` is exactly the one create call,
whatever the Kubernetes API answers. -/
theorem create_vm_log (cfg : Config) (kube : KubeEnv) (vm : VirtualMachine) :
    (create_vm cfg kube vm).2 =
      [⟨"kubevirt.io", "v1", vm.«namespace», "virtualmachines", vm_manifest vm.vm_name⟩] := by
  cases h : kube.create_namespaced_custom_object "kubevirt.io" "v1" vm.«namespace»
      "virtualmachines" (vm_manifest vm.vm_name) <;> simp [create_vm, h]

/-- Claim C1: when the lookup response for the template name has count 1, the
resolver returns that single match's id, and the launch call's URL path is
built from that numeric id (`{base}/api/v2/job_templates/{id}/launch/`), not
from the name. -/
theorem single_match_id_used_in_launch_path
    (cfg : Config) (env : Env) (job : AAPJob) (r : TemplateRecord) (base tok : String)
    (hU : cfg.AAP_CONTROLLER_URL = some base)
    (hfU : falsyOpt cfg.AAP_CONTROLLER_URL = false)
    (hT : cfg.AAP_API_TOKEN = some tok)
    (hfT : falsyOpt cfg.AAP_API_TOKEN = false)
    (hlookup : env.get_job_templates (base ++ "/api/v2/job_templates/")
        job.job_template_name = .ok ⟨1, [r]⟩) :
    (get_job_template_id cfg env job.job_template_name (aap_headers tok)).1 = .ok r.id ∧
    (launch_aap_job cfg env job).2 =
      [OutboundCall.lookup (base ++ "/api/v2/job_templates/")
          job.job_template_name (aap_headers tok),
       OutboundCall.launch (base ++ "/api/v2/job_templates/" ++ toString r.id ++ "/launch/")
          job.extra_vars (aap_headers tok)] := by
  have hres : get_job_template_id cfg env job.job_template_name (aap_headers tok) =
      (.ok r.id, [OutboundCall.lookup (base ++ "/api/v2/job_templates/")
                    job.job_template_name (aap_headers tok)]) := by
    unfold get_job_template_id
    rw [hfU, hU]
    simp [hlookup]
  refine ⟨by rw [hres], ?_⟩
  unfold launch_aap_job
  rw [hfT, hT]
  simp only [Option.getD_some, Bool.false_eq_true, if_false]
  rw [hres, hU]
  dsimp only [pyStrOfOptStr]
  cases h : env.post_launch (base ++ "/api/v2/job_templates/"
      ++ toString r.id ++ "/launch/") job.extra_vars <;> simp [h]

/-- Witness fixtures: a fully configured process, and a controller that
answers the lookup with one match (id 42) and the launch with job 101. -/
def cfgW : Config := ⟨some "https://aap.example", some "tok"⟩

def envSingle : Env :=
  ⟨fun _ _ => .ok ⟨1, [⟨42⟩]⟩, fun _ _ => .ok ⟨some 101⟩⟩

/-- Witness for claim C1 at the concrete fixture. -/
theorem single_match_id_used_in_launch_path_witness :
    (get_job_template_id cfgW envSingle "Deploy-App" (aap_headers "tok")).1
        = .ok (42 : Int) ∧
    (launch_aap_job cfgW envSingle ⟨"Deploy-App", []⟩).2 =
      [OutboundCall.lookup ("https://aap.example" ++ "/api/v2/job_templates/")
          "Deploy-App" (aap_headers "tok"),
       OutboundCall.launch ("https://aap.example" ++ "/api/v2/job_templates/"
          ++ toString (42 : Int) ++ "/launch/") [] (aap_headers "tok")] :=
  single_match_id_used_in_launch_path cfgW envSingle ⟨"Deploy-App", []⟩ ⟨42⟩
    "https://aap.example" "tok" rfl rfl rfl rfl rfl

/-- Claim C2: for every request, the manifest submitted by `create_vm` is
exactly the fixed structure — apiVersion "kubevirt.io/v1", kind
"VirtualMachine", spec.running false, exactly one disk named "containerdisk"
backed by "quay.io/containerdisks/rhel:9", memory request "2Gi", metadata
carrying only the name (no namespace field) — and the request's namespace
appears only as the scope of the create call (group "kubevirt.io", version
"v1", plural "virtualmachines"). -/
theorem create_vm_submits_exactly_fixed_manifest
    (cfg : Config) (kube : KubeEnv) (vm : VirtualMachine) :
    (create_vm cfg kube vm).2 =
      [{ group := "kubevirt.io", version := "v1", «namespace» := vm.«namespace»,
         plural := "virtualmachines",
         body := Json.obj [
           ("apiVersion", .str "kubevirt.io/v1"),
           ("kind", .str "VirtualMachine"),
           ("metadata", .obj [("name", .str vm.vm_name)]),
           ("spec", .obj [
             ("running", .bool false),
             ("template", .obj [
               ("spec", .obj [
                 ("domain", .obj [
                   ("devices", .obj [
                     ("disks", .arr [
                       .obj [("name", .str "containerdisk"),
                             ("disk", .obj [("bus", .str "virtio")])]])]),
                   ("resources", .obj [("requests", .obj [("memory", .str "2Gi")])])]),
                 ("volumes", .arr [
                   .obj [("name", .str "containerdisk"),
                         ("containerDisk",
                          .obj [("image", .str "quay.io/containerdisks/rhel:9")])]])])])])] }] ∧
    (vm_manifest vm.vm_name).getKey "metadata" = some (.obj [("name", .str vm.vm_name)]) ∧
    (Json.obj [("name", Json.str vm.vm_name)]).getKey "namespace" = none := by
  refine ⟨?_, by simp [vm_manifest, Json.getKey], by simp [Json.getKey]⟩
  rw [create_vm_log cfg kube vm]
  rfl

/-- Claim C9: `create_vm` never reads the automation-controller configuration:
any two process configurations (in particular ones differing only in
`AAP_CONTROLLER_URL` / `AAP_API_TOKEN`, set or unset) give identical outcomes
and identical outbound calls for every request and every cluster behaviour. -/
theorem create_vm_independent_of_aap_config
    (c1 c2 : Config) (kube : KubeEnv) (vm : VirtualMachine) :
    create_vm c1 kube vm = create_vm c2 kube vm := rfl

/-- Controllers whose lookup reports two, respectively three, matches for any
name; the launch oracle is never reached. -/
def envAmbiguous2 : Env :=
  ⟨fun _ _ => .ok ⟨2, [⟨1⟩, ⟨2⟩]⟩, fun _ _ => .error "unused"⟩

def envAmbiguous3 : Env :=
  ⟨fun _ _ => .ok ⟨3, [⟨1⟩, ⟨2⟩, ⟨3⟩]⟩, fun _ _ => .error "unused"⟩

/-- Claim C3 counterexample: the ambiguous-name failure does NOT carry the
match count. A lookup with count 2 and one with count 3 produce the very same
409 error, whose message contains the requested name but no digit of the
count. -/
theorem ambiguous_error_carries_no_count :
    (get_job_template_id cfgW envAmbiguous2 "Deploy-App" (aap_headers "tok")).1
      = (get_job_template_id cfgW envAmbiguous3 "Deploy-App" (aap_headers "tok")).1 ∧
    envAmbiguous2.get_job_templates "https://aap.example/api/v2/job_templates/" "Deploy-App"
      = .ok ⟨2, [⟨1⟩, ⟨2⟩]⟩ ∧
    envAmbiguous3.get_job_templates "https://aap.example/api/v2/job_templates/" "Deploy-App"
      = .ok ⟨3, [⟨1⟩, ⟨2⟩, ⟨3⟩]⟩ ∧
    (2 : Int) ≠ 3 ∧
    (get_job_template_id cfgW envAmbiguous2 "Deploy-App" (aap_headers "tok")).1
      = .exc ⟨409, "Conflict: Multiple job templates found with name \x27Deploy-App\x27."⟩ ∧
    strContains "Conflict: Multiple job templates found with name \x27Deploy-App\x27." "2"
      = false := by
  exact ⟨by decide, rfl, rfl, by decide, by decide, by decide⟩

/-- Claim C3 as amended: when the lookup response has count greater than 1,
resolution fails with Conflict (409) carrying the requested name (the message
does not include the match count), and no launch call is attempted. -/
theorem ambiguous_conflict_and_no_launch
    (cfg : Config) (env : Env) (job : AAPJob) (base tok : String)
    (c : Int) (rs : List TemplateRecord)
    (hU : cfg.AAP_CONTROLLER_URL = some base)
    (hfU : falsyOpt cfg.AAP_CONTROLLER_URL = false)
    (hT : cfg.AAP_API_TOKEN = some tok)
    (hfT : falsyOpt cfg.AAP_API_TOKEN = false)
    (hc : 1 < c)
    (hlookup : env.get_job_templates (base ++ "/api/v2/job_templates/")
        job.job_template_name = .ok ⟨c, rs⟩) :
    (launch_aap_job cfg env job).1 =
      .exc ⟨409, "Conflict: Multiple job templates found with name \x27"
                   ++ job.job_template_name ++ "\x27."⟩ ∧
    (launch_aap_job cfg env job).2 =
      [OutboundCall.lookup (base ++ "/api/v2/job_templates/")
          job.job_template_name (aap_headers tok)] := by
  have hc1 : ¬(c = 1) := by omega
  have hres : get_job_template_id cfg env job.job_template_name (aap_headers tok) =
      (.exc ⟨409, "Conflict: Multiple job templates found with name \x27"
                    ++ job.job_template_name ++ "\x27."⟩,
       [OutboundCall.lookup (base ++ "/api/v2/job_templates/")
          job.job_template_name (aap_headers tok)]) := by
    unfold get_job_template_id
    rw [hfU, hU]
    simp [hlookup, hc1, hc]
  unfold launch_aap_job
  rw [hfT, hT]
  simp only [Option.getD_some, Bool.false_eq_true, if_false]
  rw [hres]
  exact ⟨rfl, rfl⟩

/-- Witness for the amended C3 at the concrete fixture (count 2). -/
theorem ambiguous_conflict_and_no_launch_witness :
    (launch_aap_job cfgW envAmbiguous2 ⟨"Deploy-App", []⟩).1 =
      .exc ⟨409, "Conflict: Multiple job templates found with name \x27"
                   ++ "Deploy-App" ++ "\x27."⟩ ∧
    (launch_aap_job cfgW envAmbiguous2 ⟨"Deploy-App", []⟩).2 =
      [OutboundCall.lookup ("https://aap.example" ++ "/api/v2/job_templates/")
          "Deploy-App" (aap_headers "tok")] :=
  ambiguous_conflict_and_no_launch cfgW envAmbiguous2 ⟨"Deploy-App", []⟩
    "https://aap.example" "tok" 2 [⟨1⟩, ⟨2⟩] rfl rfl rfl rfl (by decide) rfl

/-- Claim C4: on a successful launch the endpoint returns success with
`job_id` equal to the response's optional "job" field — absent stays absent,
not an error — and the status URL is the fixed template
`{base_url}/#/jobs/playbook/{job_id}`, where a missing id renders as the
placeholder "None" and id 101 renders as "101". -/
theorem launch_success_job_id_optional
    (cfg : Config) (env : Env) (job : AAPJob) (r : TemplateRecord)
    (jopt : Option Int) (base tok : String)
    (hU : cfg.AAP_CONTROLLER_URL = some base)
    (hfU : falsyOpt cfg.AAP_CONTROLLER_URL = false)
    (hT : cfg.AAP_API_TOKEN = some tok)
    (hfT : falsyOpt cfg.AAP_API_TOKEN = false)
    (hlookup : env.get_job_templates (base ++ "/api/v2/job_templates/")
        job.job_template_name = .ok ⟨1, [r]⟩)
    (hlaunch : env.post_launch (base ++ "/api/v2/job_templates/"
        ++ toString r.id ++ "/launch/") job.extra_vars = .ok ⟨jopt⟩) :
    (launch_aap_job cfg env job).1 =
      .ok { status := "success",
            message := "Successfully launched job template \x27"
                         ++ job.job_template_name ++ "\x27.",
            job_id := jopt,
            aap_url := base ++ "/#/jobs/playbook/" ++ pyStrOfOptInt jopt } ∧
    pyStrOfOptInt none = "None" ∧ pyStrOfOptInt (some 101) = "101" := by
  refine ⟨?_, rfl, by decide⟩
  have hres : get_job_template_id cfg env job.job_template_name (aap_headers tok) =
      (.ok r.id, [OutboundCall.lookup (base ++ "/api/v2/job_templates/")
                    job.job_template_name (aap_headers tok)]) := by
    unfold get_job_template_id
    rw [hfU, hU]
    simp [hlookup]
  unfold launch_aap_job
  rw [hfT, hT]
  simp only [Option.getD_some, Bool.false_eq_true, if_false]
  rw [hres, hU]
  dsimp only [pyStrOfOptStr]
  rw [hlaunch]

/-- A controller whose launch response carries no "job" field. -/
def envNoJobField : Env :=
  ⟨fun _ _ => .ok ⟨1, [⟨42⟩]⟩, fun _ _ => .ok ⟨none⟩⟩

/-- Witness for claim C4 at the concrete fixture: the "job" field is absent,
and the endpoint still succeeds with `job_id` absent and the placeholder URL. -/
theorem launch_success_job_id_optional_witness :
    (launch_aap_job cfgW envNoJobField ⟨"Deploy-App", []⟩).1 =
      .ok { status := "success",
            message := "Successfully launched job template \x27"
                         ++ "Deploy-App" ++ "\x27.",
            job_id := none,
            aap_url := "https://aap.example" ++ "/#/jobs/playbook/" ++ pyStrOfOptInt none } ∧
    pyStrOfOptInt none = "None" ∧ pyStrOfOptInt (some 101) = "101" :=
  launch_success_job_id_optional cfgW envNoJobField ⟨"Deploy-App", []⟩ ⟨42⟩
    none "https://aap.example" "tok" rfl rfl rfl rfl rfl rfl

/-- Claim C5: with the bearer token unset (or empty, both falsy in the source
check), `launch_aap_job` fails immediately with the 500 Misconfigured error
and its outbound-call log is empty — neither the lookup nor the launch call is
performed, for every environment and request. -/
theorem launch_misconfigured_token_no_calls
    (cfg : Config) (env : Env) (job : AAPJob)
    (h : falsyOpt cfg.AAP_API_TOKEN = true) :
    launch_aap_job cfg env job =
      (.exc ⟨500, "AAP_API_TOKEN is not configured."⟩, []) := by
  unfold launch_aap_job
  rw [h]
  rfl

/-- Witness for claim C5: token unset. -/
theorem launch_misconfigured_token_no_calls_witness :
    launch_aap_job ⟨some "https://aap.example", none⟩ envSingle ⟨"Deploy-App", []⟩ =
      (.exc ⟨500, "AAP_API_TOKEN is not configured."⟩, []) :=
  launch_misconfigured_token_no_calls ⟨some "https://aap.example", none⟩
    envSingle ⟨"Deploy-App", []⟩ rfl

/-- Claim C6: when the lookup response has count 0, resolution fails with 404
carrying the requested name, `launch_aap_job` returns that very failure (same
error kind and message), and no launch call is attempted. -/
theorem notfound_propagated_verbatim_no_launch
    (cfg : Config) (env : Env) (job : AAPJob) (base tok : String)
    (rs : List TemplateRecord)
    (hU : cfg.AAP_CONTROLLER_URL = some base)
    (hfU : falsyOpt cfg.AAP_CONTROLLER_URL = false)
    (hT : cfg.AAP_API_TOKEN = some tok)
    (hfT : falsyOpt cfg.AAP_API_TOKEN = false)
    (hlookup : env.get_job_templates (base ++ "/api/v2/job_templates/")
        job.job_template_name = .ok ⟨0, rs⟩) :
    (get_job_template_id cfg env job.job_template_name (aap_headers tok)).1 =
      .exc ⟨404, "Not Found: No job template found with name \x27"
                   ++ job.job_template_name ++ "\x27."⟩ ∧
    (launch_aap_job cfg env job).1 =
      .exc ⟨404, "Not Found: No job template found with name \x27"
                   ++ job.job_template_name ++ "\x27."⟩ ∧
    (launch_aap_job cfg env job).2 =
      [OutboundCall.lookup (base ++ "/api/v2/job_templates/")
          job.job_template_name (aap_headers tok)] := by
  have hres : get_job_template_id cfg env job.job_template_name (aap_headers tok) =
      (.exc ⟨404, "Not Found: No job template found with name \x27"
                    ++ job.job_template_name ++ "\x27."⟩,
       [OutboundCall.lookup (base ++ "/api/v2/job_templates/")
          job.job_template_name (aap_headers tok)]) := by
    unfold get_job_template_id
    rw [hfU, hU]
    simp [hlookup]
  have hlau : launch_aap_job cfg env job =
      (.exc ⟨404, "Not Found: No job template found with name \x27"
                    ++ job.job_template_name ++ "\x27."⟩,
       [OutboundCall.lookup (base ++ "/api/v2/job_templates/")
          job.job_template_name (aap_headers tok)]) := by
    unfold launch_aap_job
    rw [hfT, hT]
    simp only [Option.getD_some, Bool.false_eq_true, if_false]
    rw [hres]
  rw [hres, hlau]
  exact ⟨rfl, rfl, rfl⟩

/-- A controller that knows no template of any name. -/
def envNoMatch : Env :=
  ⟨fun _ _ => .ok ⟨0, []⟩, fun _ _ => .error "unused"⟩

/-- Witness for claim C6 at the concrete fixture. -/
theorem notfound_propagated_verbatim_no_launch_witness :
    (get_job_template_id cfgW envNoMatch "Deploy-App" (aap_headers "tok")).1 =
      .exc ⟨404, "Not Found: No job template found with name \x27"
                   ++ "Deploy-App" ++ "\x27."⟩ ∧
    (launch_aap_job cfgW envNoMatch ⟨"Deploy-App", []⟩).1 =
      .exc ⟨404, "Not Found: No job template found with name \x27"
                   ++ "Deploy-App" ++ "\x27."⟩ ∧
    (launch_aap_job cfgW envNoMatch ⟨"Deploy-App", []⟩).2 =
      [OutboundCall.lookup ("https://aap.example" ++ "/api/v2/job_templates/")
          "Deploy-App" (aap_headers "tok")] :=
  notfound_propagated_verbatim_no_launch cfgW envNoMatch ⟨"Deploy-App", []⟩
    "https://aap.example" "tok" [] rfl rfl rfl rfl rfl

/-- Claim C7: when the cluster API rejects the create call with status `st`
and reason `reason`, `create_vm` fails with exactly that status code and a
message containing the remote reason verbatim (as the suffix after the fixed
prefix). -/
theorem create_vm_surfaces_remote_status_and_reason
    (cfg : Config) (kube : KubeEnv) (vm : VirtualMachine) (st : Nat) (reason : String)
    (h : kube.create_namespaced_custom_object "kubevirt.io" "v1" vm.«namespace»
        "virtualmachines" (vm_manifest vm.vm_name) = .apiError st reason) :
    (create_vm cfg kube vm).1 =
      .exc ⟨st, "Kubernetes API Error: Failed to create VM. Reason: " ++ reason⟩ := by
  simp [create_vm, h]

/-- A cluster that rejects every create call with 409 AlreadyExists. -/
def kubeConflict : KubeEnv :=
  ⟨fun _ _ _ _ _ => .apiError 409 "AlreadyExists"⟩

/-- Witness for claim C7: remote 409 "AlreadyExists" is surfaced as 409 with
"AlreadyExists" in the message. -/
theorem create_vm_surfaces_remote_status_and_reason_witness :
    (create_vm cfgW kubeConflict ⟨"test-vm", "default"⟩).1 =
      .exc ⟨409, "Kubernetes API Error: Failed to create VM. Reason: " ++ "AlreadyExists"⟩ :=
  create_vm_surfaces_remote_status_and_reason cfgW kubeConflict
    ⟨"test-vm", "default"⟩ 409 "AlreadyExists" rfl

/-- Claim C8: an automation-controller call that raises a
`RequestException` (transport failure, or a non-2xx turned into one by
`raise_for_status`) makes the operation fail with 503 and a message that ends
with the underlying error text: shown for the lookup call (environment
`env1`) and for the launch call (environment `env2`). -/
theorem controller_failures_map_to_503
    (cfg : Config) (env1 env2 : Env) (job : AAPJob) (r : TemplateRecord)
    (base tok e1 e2 : String)
    (hU : cfg.AAP_CONTROLLER_URL = some base)
    (hfU : falsyOpt cfg.AAP_CONTROLLER_URL = false)
    (hT : cfg.AAP_API_TOKEN = some tok)
    (hfT : falsyOpt cfg.AAP_API_TOKEN = false)
    (h1 : env1.get_job_templates (base ++ "/api/v2/job_templates/")
        job.job_template_name = .error e1)
    (h2a : env2.get_job_templates (base ++ "/api/v2/job_templates/")
        job.job_template_name = .ok ⟨1, [r]⟩)
    (h2b : env2.post_launch (base ++ "/api/v2/job_templates/"
        ++ toString r.id ++ "/launch/") job.extra_vars = .error e2) :
    (launch_aap_job cfg env1 job).1 =
      .exc ⟨503, "Service Unavailable: Could not connect to AAP. Error: " ++ e1⟩ ∧
    (launch_aap_job cfg env2 job).1 =
      .exc ⟨503, "Service Unavailable: Failed to launch job in AAP. Error: " ++ e2⟩ := by
  constructor
  · have hres : get_job_template_id cfg env1 job.job_template_name (aap_headers tok) =
        (.exc ⟨503, "Service Unavailable: Could not connect to AAP. Error: " ++ e1⟩,
         [OutboundCall.lookup (base ++ "/api/v2/job_templates/")
            job.job_template_name (aap_headers tok)]) := by
      unfold get_job_template_id
      rw [hfU, hU]
      simp [h1]
    unfold launch_aap_job
    rw [hfT, hT]
    simp only [Option.getD_some, Bool.false_eq_true, if_false]
    rw [hres]
  · have hres : get_job_template_id cfg env2 job.job_template_name (aap_headers tok) =
        (.ok r.id, [OutboundCall.lookup (base ++ "/api/v2/job_templates/")
                      job.job_template_name (aap_headers tok)]) := by
      unfold get_job_template_id
      rw [hfU, hU]
      simp [h2a]
    unfold launch_aap_job
    rw [hfT, hT]
    simp only [Option.getD_some, Bool.false_eq_true, if_false]
    rw [hres, hU]
    dsimp only [pyStrOfOptStr]
    rw [h2b]

/-- A controller that is unreachable for every call. -/
def envDown : Env :=
  ⟨fun _ _ => .error "connection refused", fun _ _ => .error "connection refused"⟩

/-- A controller whose lookup succeeds with one match but whose launch call
times out. -/
def envLaunchDown : Env :=
  ⟨fun _ _ => .ok ⟨1, [⟨42⟩]⟩, fun _ _ => .error "read timeout"⟩

/-- Witness for claim C8 at the concrete fixtures. -/
theorem controller_failures_map_to_503_witness :
    (launch_aap_job cfgW envDown ⟨"Deploy-App", []⟩).1 =
      .exc ⟨503, "Service Unavailable: Could not connect to AAP. Error: "
                   ++ "connection refused"⟩ ∧
    (launch_aap_job cfgW envLaunchDown ⟨"Deploy-App", []⟩).1 =
      .exc ⟨503, "Service Unavailable: Failed to launch job in AAP. Error: "
                   ++ "read timeout"⟩ :=
  controller_failures_map_to_503 cfgW envDown envLaunchDown ⟨"Deploy-App", []⟩ ⟨42⟩
    "https://aap.example" "tok" "connection refused" "read timeout"
    rfl rfl rfl rfl rfl rfl rfl

/-- Claim C10: no non-emptiness validation anywhere: with every string field
empty, the workflows still perform their outbound calls, passing the empty
string through unchanged — as the lookup's name query parameter, and as the
manifest's metadata.name together with the create call's namespace scope. -/
theorem empty_strings_passed_through
    (cfg : Config) (env : Env) (kube : KubeEnv) (ev : ExtraVars) (base tok : String)
    (hU : cfg.AAP_CONTROLLER_URL = some base)
    (hfU : falsyOpt cfg.AAP_CONTROLLER_URL = false)
    (hT : cfg.AAP_API_TOKEN = some tok)
    (hfT : falsyOpt cfg.AAP_API_TOKEN = false) :
    (launch_aap_job cfg env ⟨"", ev⟩).2.head? =
      some (OutboundCall.lookup (base ++ "/api/v2/job_templates/") "" (aap_headers tok)) ∧
    (create_vm cfg kube ⟨"", ""⟩).2 =
      [⟨"kubevirt.io", "v1", "", "virtualmachines", vm_manifest ""⟩] ∧
    (vm_manifest "").getKey "metadata" = some (.obj [("name", .str "")]) := by
  refine ⟨?_, create_vm_log cfg kube ⟨"", ""⟩, by simp [vm_manifest, Json.getKey]⟩
  have hlog := get_job_template_id_log cfg env "" (aap_headers tok) base hU hfU
  unfold launch_aap_job
  rw [hfT, hT]
  simp only [Option.getD_some, Bool.false_eq_true, if_false]
  cases hres : get_job_template_id cfg env "" (aap_headers tok) with
  | mk fst snd =>
      rw [hres] at hlog
      dsimp at hlog
      subst hlog
      cases fst with
      | ok tid =>
          dsimp only
          cases env.post_launch (pyStrOfOptStr cfg.AAP_CONTROLLER_URL
              ++ "/api/v2/job_templates/" ++ toString tid ++ "/launch/") ev <;> rfl
      | exc e => rfl
      | crash m => rfl

/-- A permissive cluster, for the C10 witness. -/
def kubeOk : KubeEnv := ⟨fun _ _ _ _ _ => .ok⟩

/-- Witness for claim C10 at the concrete fixture. -/
theorem empty_strings_passed_through_witness :
    (launch_aap_job cfgW envSingle ⟨"", []⟩).2.head? =
      some (OutboundCall.lookup ("https://aap.example" ++ "/api/v2/job_templates/")
        "" (aap_headers "tok")) ∧
    (create_vm cfgW kubeOk ⟨"", ""⟩).2 =
      [⟨"kubevirt.io", "v1", "", "virtualmachines", vm_manifest ""⟩] ∧
    (vm_manifest "").getKey "metadata" = some (.obj [("name", .str "")]) :=
  empty_strings_passed_through cfgW envSingle kubeOk []
    "https://aap.example" "tok" rfl rfl rfl rfl
